import Mathlib

/-!
Verification development for the CloudsenseElasticCancelMACDRequest lambda.

The definitions below are a shallow embedding of `lambda_function/app.py`
and `lambda_function/kayako_connection.py`:

* pure Python helpers become Lean functions;
* the tenant database becomes an explicit `Database` value (the three tables
  of the tenant schema `org_<id>` as ordered lists of rows);
* the psycopg2 transaction becomes explicit state passing: updates act on a
  pending copy of the database, and commit/rollback decides whether the
  pending copy becomes the persisted one;
* exceptions become `Except`, and the places where the driver can raise are
  modelled by a fault schedule `Nat -> Bool` consulted at each driver call.

Library calls of the Python runtime that are not part of this repository
(the JSON decoder, the AST literal parser) are modelled as function
parameters returning `Option`, so every theorem quantifies over their
behaviour.
-/

/-- A cell of a Python value, as produced by JSON decoding of a request
body.  Mirrors the dynamic types that `app.py` dispatches on:
`None`, `bool`, `int` (standing for the numeric types), `str`, `list`,
`dict`. -/
inductive PyVal where
  | vnone : PyVal
  | vbool : Bool → PyVal
  | vint : Int → PyVal
  | vstr : String → PyVal
  | vlist : List PyVal → PyVal
  | vdict : List (String × PyVal) → PyVal

/-- Python truthiness (`bool(value)`) for the values of `PyVal`. -/
def pyTruthy : PyVal → Bool
  | .vnone => false
  | .vbool b => b
  | .vint n => n ≠ 0
  | .vstr s => s ≠ ""
  | .vlist l => ¬ l.isEmpty
  | .vdict d => ¬ d.isEmpty

/-- Python `a or b`: the first operand when truthy, else the second. -/
def pyOr (a b : PyVal) : PyVal := if pyTruthy a then a else b

/-- Association-list lookup, first binding wins (Python dict access). -/
def alookup {α : Type} : List (String × α) → String → Option α
  | [], _ => none
  | (k, v) :: rest, key => if k = key then some v else alookup rest key

/-- `dict.get(key, default)`. -/
def alookupD {α : Type} (l : List (String × α)) (key : String) (dflt : α) : α :=
  (alookup l key).getD dflt

/-- A row of the tenant `subscription` table (the two columns the query
touches: primary key and the Salesforce id). -/
structure SubRow where
  id : String
  sfdc_id : String
deriving DecidableEq

/-- A row of the tenant `macd_request` table.  `basket_id` is nullable. -/
structure MacdRow where
  id : String
  basket_id : Option String
  status : String
  subscription_id : String
deriving DecidableEq

/-- A row of the tenant `order_request` table. -/
structure OrderRow where
  basket_id : Option String
  status : String
deriving DecidableEq

/-- The tables of one tenant schema `org_<id>` that the routine reads and
writes.  Row order models physical fetch order. -/
structure Database where
  subscription : List SubRow
  macd_request : List MacdRow
  order_request : List OrderRow
deriving DecidableEq

/-- The record `{'id', 'basket_id', 'status'}` built for each fetched row. -/
structure MacdRecord where
  id : String
  basket_id : Option String
  status : String
deriving DecidableEq

/-- The result dictionary assembled by `process_macd_cancellation`. -/
structure CancellationResult where
  total_found : Nat
  eligible_count : Nat
  skipped_wrong_status : Nat
  order_requests_updated : Nat
  macd_requests_updated : Nat
  committed : Bool
  macd_records : List MacdRecord
  skipped_records : List MacdRecord
  updated_basket_ids : List String
  updated_macd_ids : List String
deriving DecidableEq

/-- Fuel-bounded core of the SQL `LIKE` matcher (`%%` any run, `_` one
character, anything else literal).  The fuel makes the recursion structural
so that concrete instances reduce in the kernel; `sqlLike` supplies enough
fuel for full evaluation. -/
def likeAux : Nat → List Char → List Char → Bool
  | 0, _, _ => false
  | _ + 1, [], s => s.isEmpty
  | fuel + 1, c :: p, s =>
    if c = Char.ofNat 37 then
      likeAux fuel p s ||
        (match s with
          | [] => false
          | _ :: s2 => likeAux fuel (c :: p) s2)
    else
      match s with
      | [] => false
      | d :: s2 =>
        if c = Char.ofNat 95 then likeAux fuel p s2
        else c = d && likeAux fuel p s2

/-- `s LIKE pattern` of the database engine. -/
def sqlLike (s pattern : String) : Bool :=
  likeAux (pattern.length + s.length + 1) pattern.data s.data

/-- Python `sub.strip(chars)` for the double-quote character, as used on
`org_id`: drop every leading and trailing `"` character. -/
def stripQuotes (s : String) : String :=
  String.mk ((s.data.dropWhile (· = Char.ofNat 34)).reverse.dropWhile
    (· = Char.ofNat 34)).reverse

/-- Python `value.strip()`: drop leading and trailing whitespace. -/
def pyStrip (s : String) : String :=
  String.mk ((s.data.dropWhile Char.isWhitespace).reverse.dropWhile
    Char.isWhitespace).reverse

/-- Python `s.upper()` (ASCII, as the region codes are). -/
def pyUpper (s : String) : String := String.mk (s.data.map Char.toUpper)

/-- Python `s.lower()` (ASCII, as the org ids are). -/
def pyLower (s : String) : String := String.mk (s.data.map Char.toLower)

/-- `list(dict.fromkeys(l))`: de-duplication keeping the first occurrence,
order preserved.  `seen` accumulates the keys already emitted. -/
def dedupAux : List String → List String → List String
  | _, [] => []
  | seen, x :: xs =>
    if x ∈ seen then dedupAux seen xs else x :: dedupAux (x :: seen) xs

/-- De-duplicate preserving first-occurrence order. -/
def dedupFirst (l : List String) : List String := dedupAux [] l

/-- The row set fetched by the SELECT: `macd_request` rows whose
`subscription_id` is the key of a `subscription` row whose `sfdc_id`
matches some pattern `sub ++ "%"` (OR over the supplied ids).  The model
assumes a non-empty subscription list: with an empty list the source
builds syntactically invalid SQL and the driver raises, so every theorem
about fetched rows carries that hypothesis. -/
def selectMacd (db : Database) (subscriptions : List String) : List MacdRow :=
  db.macd_request.filter fun m =>
    db.subscription.any fun s =>
      (subscriptions.any fun p => sqlLike s.sfdc_id (p ++ "%")) &&
        s.id = m.subscription_id

/-- The record built from a fetched row. -/
def toRecord (m : MacdRow) : MacdRecord := ⟨m.id, m.basket_id, m.status⟩

/-- Records of fetched rows with status exactly `posted` (eligible),
in fetch order. -/
def eligibleOf (db : Database) (subscriptions : List String) : List MacdRecord :=
  ((selectMacd db subscriptions).map toRecord).filter fun r => r.status = "posted"

/-- Records of fetched rows with any other status (skipped), in fetch
order. -/
def skippedOf (db : Database) (subscriptions : List String) : List MacdRecord :=
  ((selectMacd db subscriptions).map toRecord).filter fun r => ¬ r.status = "posted"

/-- Python truthiness of a nullable string cell (`if r[col]`): false for
SQL NULL and for the empty string. -/
def cellTruthy : Option String → Bool
  | none => false
  | some s => s ≠ ""

/-- `basket_ids`: the truthy basket ids of the eligible records,
de-duplicated with first-occurrence order. -/
def basketIdsOf (db : Database) (subscriptions : List String) : List String :=
  dedupFirst (((eligibleOf db subscriptions).map MacdRecord.basket_id).filterMap
    fun b => if cellTruthy b then b else none)

/-- `macd_ids`: the truthy ids of the eligible records, de-duplicated with
first-occurrence order. -/
def macdIdsOf (db : Database) (subscriptions : List String) : List String :=
  dedupFirst (((eligibleOf db subscriptions).map MacdRecord.id).filter fun i => i ≠ "")

/-- WHERE clause of the `order_request` UPDATE: `basket_id IN (ids)`
(NULL never matches an IN list). -/
def orderRowHit (ids : List String) (r : OrderRow) : Bool :=
  match r.basket_id with
  | some b => b ∈ ids
  | none => false

/-- WHERE clause of the `macd_request` UPDATE: `id IN (ids)`. -/
def macdRowHit (ids : List String) (m : MacdRow) : Bool := m.id ∈ ids

/-- Rows the `order_request` UPDATE would report as affected
(`cur.rowcount`). -/
def countOrderMatch (ids : List String) (db : Database) : Nat :=
  (db.order_request.filter (orderRowHit ids)).length

/-- Effect of `UPDATE order_request SET status = 'Error' WHERE basket_id IN
(ids)` on the pending database. -/
def applyOrderUpdate (ids : List String) (db : Database) : Database :=
  { db with order_request :=
      db.order_request.map fun r =>
        if orderRowHit ids r then { r with status := "Error" } else r }

/-- Rows the `macd_request` UPDATE would report as affected. -/
def countMacdMatch (ids : List String) (db : Database) : Nat :=
  (db.macd_request.filter (macdRowHit ids)).length

/-- Effect of `UPDATE macd_request SET status = 'posted1' WHERE id IN
(ids)` on the pending database. -/
def applyMacdUpdate (ids : List String) (db : Database) : Database :=
  { db with macd_request :=
      db.macd_request.map fun m =>
        if macdRowHit ids m then { m with status := "posted1" } else m }

/-- `process_macd_cancellation` on the fault-free path: the returned result
dictionary together with the database state that is persisted after the
connection closes (rollback discards the pending updates, commit keeps
them).  Direct translation of app.py lines 291-417. -/
def process_macd_cancellation (db : Database) (org_id : String)
    (subscriptions : List String) (test_mode : Bool) :
    CancellationResult × Database :=
  let clean_org_id := pyLower (stripQuotes org_id)
  let _schema_name := "org_" ++ clean_org_id
  let rows := selectMacd db subscriptions
  let eligible_records := eligibleOf db subscriptions
  let skipped := skippedOf db subscriptions
  let base : CancellationResult :=
    { total_found := rows.length
      eligible_count := eligible_records.length
      skipped_wrong_status := skipped.length
      order_requests_updated := 0
      macd_requests_updated := 0
      committed := false
      macd_records := eligible_records
      skipped_records := skipped
      updated_basket_ids := []
      updated_macd_ids := [] }
  if eligible_records.isEmpty then
    (base, db)
  else
    let basket_ids := basketIdsOf db subscriptions
    let macd_ids := macdIdsOf db subscriptions
    let orderCnt := if basket_ids.isEmpty then 0 else countOrderMatch basket_ids db
    let db1 := if basket_ids.isEmpty then db else applyOrderUpdate basket_ids db
    let macdCnt := if macd_ids.isEmpty then 0 else countMacdMatch macd_ids db1
    let db2 := if macd_ids.isEmpty then db1 else applyMacdUpdate macd_ids db1
    let filled : CancellationResult :=
      { base with
          order_requests_updated := orderCnt
          macd_requests_updated := macdCnt
          updated_basket_ids := basket_ids
          updated_macd_ids := macd_ids }
    if test_mode then
      ({ filled with committed := false }, db)
    else
      ({ filled with committed := true }, db2)

/-- Spec-side predicate of claim C2 for an `order_request` row: its
`basket_id` is one of the eligible records' non-null, non-empty basket
ids.  Stated directly over `eligibleOf`, independently of the
de-duplicated list the code builds. -/
def claimOrderAffected (db : Database) (subscriptions : List String)
    (r : OrderRow) : Bool :=
  match r.basket_id with
  | some b => b ≠ "" && (eligibleOf db subscriptions).any fun m => m.basket_id = some b
  | none => false

/-- Spec-side predicate of claim C2 for a `macd_request` row: its id is one
of the eligible records' non-empty ids. -/
def claimMacdAffected (db : Database) (subscriptions : List String)
    (m : MacdRow) : Bool :=
  m.id ≠ "" && (eligibleOf db subscriptions).any fun e => e.id = m.id

/-- Connection and transaction state threaded through the fault-injected
run: the persisted database, the pending transaction view, whether
`psycopg2.connect` has succeeded, whether `conn.close()` has run, and the
index of the next fallible driver call. -/
structure PState where
  committed : Database
  pending : Database
  connected : Bool
  closed : Bool
  tick : Nat
deriving DecidableEq

/-- One fallible driver call inside an UPDATE branch: either the fault
schedule fires at the current tick (the call raises), or the rowcount is
read off the pending view and the update is applied to it. -/
def execUpdate (f : Nat → Bool) (st : PState) (cnt : Database → Nat)
    (ap : Database → Database) : Except Nat Nat × PState :=
  if f st.tick then (.error st.tick, { st with tick := st.tick + 1 })
  else (.ok (cnt st.pending), { st with tick := st.tick + 1, pending := ap st.pending })

/-- The `try` block of `process_macd_cancellation` with a fault schedule
`f`: tick 0 is `psycopg2.connect`, tick 1 `conn.cursor()`, tick 2 the
SELECT, then one tick for each UPDATE actually issued and one for the
final `commit`/`rollback`.  `Except.error k` is the exception raised by
the call at tick `k`, propagating out of the block. -/
def macdBody (f : Nat → Bool) (db : Database) (org_id : String)
    (subscriptions : List String) (test_mode : Bool) :
    Except Nat CancellationResult × PState :=
  let st0 : PState := ⟨db, db, false, false, 0⟩
  if f 0 then (.error 0, { st0 with tick := 1 }) else
  let st1 : PState := { st0 with connected := true, tick := 1 }
  if f 1 then (.error 1, { st1 with tick := 2 }) else
  let st2 : PState := { st1 with tick := 2 }
  let clean_org_id := pyLower (stripQuotes org_id)
  let _schema_name := "org_" ++ clean_org_id
  if f 2 then (.error 2, { st2 with tick := 3 }) else
  let st3 : PState := { st2 with tick := 3 }
  let rows := selectMacd st3.pending subscriptions
  let eligible_records := eligibleOf st3.pending subscriptions
  let skipped := skippedOf st3.pending subscriptions
  let base : CancellationResult :=
    { total_found := rows.length
      eligible_count := eligible_records.length
      skipped_wrong_status := skipped.length
      order_requests_updated := 0
      macd_requests_updated := 0
      committed := false
      macd_records := eligible_records
      skipped_records := skipped
      updated_basket_ids := []
      updated_macd_ids := [] }
  if eligible_records.isEmpty then (.ok base, st3) else
  let basket_ids := basketIdsOf st3.pending subscriptions
  let macd_ids := macdIdsOf st3.pending subscriptions
  match (if basket_ids.isEmpty then (.ok 0, st3)
         else execUpdate f st3 (countOrderMatch basket_ids) (applyOrderUpdate basket_ids)) with
  | (.error e, st) => (.error e, st)
  | (.ok orderCnt, st4) =>
    match (if macd_ids.isEmpty then (.ok 0, st4)
           else execUpdate f st4 (countMacdMatch macd_ids) (applyMacdUpdate macd_ids)) with
    | (.error e, st) => (.error e, st)
    | (.ok macdCnt, st5) =>
      let filled : CancellationResult :=
        { base with
            order_requests_updated := orderCnt
            macd_requests_updated := macdCnt
            updated_basket_ids := basket_ids
            updated_macd_ids := macd_ids }
      if f st5.tick then (.error st5.tick, { st5 with tick := st5.tick + 1 }) else
      if test_mode then
        (.ok { filled with committed := false },
          { st5 with pending := st5.committed, tick := st5.tick + 1 })
      else
        (.ok { filled with committed := true },
          { st5 with committed := st5.pending, tick := st5.tick + 1 })

/-- The `except` handler of app.py lines 419-423: if a connection is open,
roll back, then re-raise. -/
def exceptRollback (st : PState) : PState :=
  if st.connected then { st with pending := st.committed } else st

/-- The `finally` clause of app.py lines 424-426: if a connection exists,
close it. -/
def finallyClose (st : PState) : PState :=
  if st.connected then { st with closed := true } else st

/-- `process_macd_cancellation` under a fault schedule: the try block,
then the except handler on the error path, then the finally clause on
every path. -/
def process_macd_cancellation_f (f : Nat → Bool) (db : Database)
    (org_id : String) (subscriptions : List String) (test_mode : Bool) :
    Except Nat CancellationResult × PState :=
  match macdBody f db org_id subscriptions test_mode with
  | (.ok r, st) => (.ok r, finallyClose st)
  | (.error e, st) => (.error e, finallyClose (exceptRollback st))

/-- `parse_bool_parameter` of app.py lines 147-176. -/
def parse_bool_parameter : PyVal → Bool
  | .vnone => false
  | .vbool b => b
  | .vstr s => pyLower s = "true" || pyLower s = "1" || pyLower s = "yes"
  | .vint n => n ≠ 0
  | .vlist _ => false
  | .vdict _ => false

/-- `parse_list_parameter` of app.py lines 179-227.  The two library
parsers it calls, `json.loads` and `ast.literal_eval`, are not part of
this repository; they are taken as parameters `jsonP` and `litP`, with
`none` standing for a parse failure (the caught exception).  Only a
successful parse to a list is accepted by either stage. -/
def parse_list_parameter (jsonP litP : String → Option PyVal) :
    PyVal → List PyVal
  | .vnone => []
  | .vlist l => l
  | .vstr s =>
    let t := pyStrip s
    if t = "" then []
    else
      match jsonP t with
      | some (.vlist l) => l
      | _ =>
        match litP t with
        | some (.vlist l) => l
        | _ => [.vstr t]
  | v => [v]

/-- `validate_inputs` of app.py lines 230-250.  `subscriptions` has
already been through `parse_list_parameter`, so it is always a list and
only the emptiness branch of the elif chain is reachable. -/
def validate_inputs (org_id : PyVal) (subscriptions : List PyVal)
    (region case_id : PyVal) : List String :=
  (if pyTruthy org_id then [] else ["Missing required field: org_id"]) ++
  (if subscriptions.isEmpty then
      ["Missing required field: subscriptions (must be a non-empty list)"]
    else []) ++
  (if pyTruthy region then [] else ["Missing required field: region"]) ++
  (if pyTruthy case_id then [] else ["Missing required field: case_id"])

/-- The region entry of the `databases` configuration mapping. -/
structure RegionConfig where
  sm_db_name : Option String
  sm_db_user : Option String
  sm_db_password : Option String
  sm_db_host : Option String
  sm_db_port : Option Nat
deriving DecidableEq

/-- The `db_config` dictionary assembled by `get_database_config`:
credential fields as fetched (possibly absent), port already defaulted. -/
structure DbProfile where
  dbname : Option String
  user : Option String
  password : Option String
  host : Option String
  port : Nat
deriving DecidableEq

/-- Build the profile from a region entry; a missing `sm_db_port` defaults
to 5432. -/
def profileOf (rc : RegionConfig) : DbProfile :=
  ⟨rc.sm_db_name, rc.sm_db_user, rc.sm_db_password, rc.sm_db_host,
    rc.sm_db_port.getD 5432⟩

/-- `[key for key, value in db_config.items() if not value and key != 'port']`:
the names of the empty credential fields, in dictionary insertion order. -/
def missingOf (rc : RegionConfig) : List String :=
  (if cellTruthy rc.sm_db_name then [] else ["dbname"]) ++
  (if cellTruthy rc.sm_db_user then [] else ["user"]) ++
  (if cellTruthy rc.sm_db_password then [] else ["password"]) ++
  (if cellTruthy rc.sm_db_host then [] else ["host"])

/-- The single-quote character, written by code point to keep it out of
string literals. -/
def quoteCh : String := String.singleton (Char.ofNat 39)

/-- Python `str(list_of_strings)` as interpolated into the unsupported
region message: each key single-quoted, comma separated. -/
def pyStrListRepr : List String → String
  | [] => ""
  | [k] => quoteCh ++ k ++ quoteCh
  | k :: rest => quoteCh ++ k ++ quoteCh ++ ", " ++ pyStrListRepr rest

/-- Python `", ".join(l)`. -/
def joinComma : List String → String
  | [] => ""
  | [x] => x
  | x :: rest => x ++ ", " ++ joinComma rest

/-- `get_database_config` of app.py lines 253-288.  `jsonLoadsDb` stands
for `json.loads` specialised to the configuration blob (`none` = decode
failure); `databases_env` is `os.environ.get('databases')`.  Errors carry
the `ValueError` message text. -/
def get_database_config (jsonLoadsDb : String → Option (List (String × RegionConfig)))
    (databases_env : Option String) (region : String) : Except String DbProfile :=
  let regionU := pyUpper region
  match databases_env with
  | none => .error "No databases configuration found in SSM parameters"
  | some blob =>
    match jsonLoadsDb blob with
    | none => .error "Invalid databases configuration: JSON decode failure"
    | some databases =>
      match alookup databases regionU with
      | none =>
        .error ("Unsupported database region: " ++ regionU ++
          ". Supported regions: [" ++ pyStrListRepr (databases.map Prod.fst) ++ "]")
      | some rc =>
        if (missingOf rc).isEmpty then .ok (profileOf rc)
        else
          .error ("Missing database configuration parameters for " ++ regionU ++
            ": " ++ joinComma (missingOf rc))

/-- Outcome of one `requests.get/post/put` call in the ticketing client:
an HTTP status, or one of the two caught exception kinds. -/
inductive HttpOutcome where
  | status : Nat → HttpOutcome
  | connError : HttpOutcome
  | reqError : HttpOutcome
deriving DecidableEq

/-- Observable trace of one client call: the successful attempt index (or
`none`), the number of HTTP requests issued, and the total seconds slept. -/
structure CallTrace where
  result : Option Nat
  calls : Nat
  sleepSeconds : Nat
deriving DecidableEq

/-- The retry loop shared by `KayakoConnect.get/post/put`
(kayako_connection.py lines 62-134): up to `remaining` further attempts
(the `while attempts < 3` counter), `resp n` the outcome of the n-th
request.  A success code returns the payload; 429 sleeps 15 seconds and
retries; any other status or a caught exception returns `None` at once;
an exhausted loop falls through returning `None`. -/
def retryLoop (isSuccess : Nat → Bool) (resp : Nat → HttpOutcome) :
    Nat → Nat → Nat → CallTrace
  | 0, calls, sleeps => ⟨none, calls, sleeps⟩
  | remaining + 1, calls, sleeps =>
    match resp calls with
    | .connError => ⟨none, calls + 1, sleeps⟩
    | .reqError => ⟨none, calls + 1, sleeps⟩
    | .status c =>
      if isSuccess c then ⟨some calls, calls + 1, sleeps⟩
      else if c = 429 then retryLoop isSuccess resp remaining (calls + 1) (sleeps + 15)
      else ⟨none, calls + 1, sleeps⟩

/-- `KayakoConnect.get` (success on 200; the 401/404 branches return
`None` exactly like the catch-all branch and are folded into it). -/
def kayakoGet (resp : Nat → HttpOutcome) : CallTrace :=
  retryLoop (fun c => c = 200) resp 3 0 0

/-- `KayakoConnect.post` (success on 201). -/
def kayakoPost (resp : Nat → HttpOutcome) : CallTrace :=
  retryLoop (fun c => c = 201) resp 3 0 0

/-- `KayakoConnect.put` (success on 200 or 202). -/
def kayakoPut (resp : Nat → HttpOutcome) : CallTrace :=
  retryLoop (fun c => c = 200 || c = 202) resp 3 0 0

mutual

/-- Size of a Python value, used as renderer fuel. -/
def pySize : PyVal → Nat
  | .vnone => 1
  | .vbool _ => 1
  | .vint _ => 1
  | .vstr _ => 1
  | .vlist l => 1 + pySizeList l
  | .vdict d => 1 + pySizeDict d

/-- Size of a list of Python values. -/
def pySizeList : List PyVal → Nat
  | [] => 0
  | v :: rest => 1 + pySize v + pySizeList rest

/-- Size of the entry list of a Python dict. -/
def pySizeDict : List (String × PyVal) → Nat
  | [] => 0
  | kv :: rest => 1 + pySize kv.2 + pySizeDict rest

end

/-- Fuel-bounded `json.dumps` (default separators; string escaping is not
modelled, the configuration keys and values of interest contain no
escapes). -/
def jsonDumpsF : Nat → PyVal → String
  | 0, _ => ""
  | _ + 1, .vnone => "null"
  | _ + 1, .vbool b => if b then "true" else "false"
  | _ + 1, .vint n => toString n
  | _ + 1, .vstr s => "\"" ++ s ++ "\""
  | fuel + 1, .vlist l => "[" ++ joinComma (l.map (jsonDumpsF fuel)) ++ "]"
  | fuel + 1, .vdict d =>
    "\x7b" ++
      joinComma (d.map fun kv => "\"" ++ kv.1 ++ "\": " ++ jsonDumpsF fuel kv.2) ++
      "\x7d"

/-- `json.dumps(v)`, with enough fuel to terminate. -/
def jsonDumps (v : PyVal) : String := jsonDumpsF (pySize v) v

/-- Fuel-bounded Python `repr`. -/
def pyReprF : Nat → PyVal → String
  | 0, _ => ""
  | _ + 1, .vnone => "None"
  | _ + 1, .vbool b => if b then "True" else "False"
  | _ + 1, .vint n => toString n
  | _ + 1, .vstr s => quoteCh ++ s ++ quoteCh
  | fuel + 1, .vlist l => "[" ++ joinComma (l.map (pyReprF fuel)) ++ "]"
  | fuel + 1, .vdict d =>
    "\x7b" ++
      joinComma (d.map fun kv => quoteCh ++ kv.1 ++ quoteCh ++ ": " ++ pyReprF fuel kv.2) ++
      "\x7d"

/-- Python `str(v)`: the string itself for strings, `repr` otherwise. -/
def pyStr : PyVal → String
  | .vstr s => s
  | v => pyReprF (pySize v) v

/-- The value written into `os.environ[key]` for a configuration entry
(app.py lines 29-33): dictionaries are JSON-encoded, everything else is
stringified. -/
def renderEnvVal : PyVal → String
  | .vdict d => jsonDumps (.vdict d)
  | v => pyStr v

/-- `os.environ`, modelled as a map from names to values. -/
def envSetF (e : String → Option String) (k v : String) :
    String → Option String :=
  fun k2 => if k2 = k then some v else e k2

/-- `PARAMETERS = PARAMETERS or load_parameters(...)`: keep the cached
value when it is truthy (a non-empty dict), otherwise fetch the store.
Returns the effective parameters and whether a fetch happened. -/
def loadStep (cur : Option (List (String × PyVal)))
    (store : List (String × PyVal)) : List (String × PyVal) × Bool :=
  match cur with
  | some p => if p.isEmpty then (store, true) else (p, false)
  | none => (store, true)

/-- The raw query-string value of `test_mode`, as the Python expression
`query_params.get('test_mode')` sees it (query values are strings). -/
def queryTestVal (query : List (String × String)) : PyVal :=
  match alookup query "test_mode" with
  | some s => .vstr s
  | none => .vnone

/-- The effective test flag (app.py lines 60-62):
`parse_bool_parameter(body.get('test') or query_params.get('test_mode') or False)`. -/
def effectiveTestFlag (fields : List (String × PyVal))
    (query : List (String × String)) : Bool :=
  parse_bool_parameter
    (pyOr (alookupD fields "test" .vnone) (pyOr (queryTestVal query) (.vbool false)))

/-- `"; ".join(l)`. -/
def joinSemicolon : List String → String
  | [] => ""
  | [x] => x
  | x :: rest => x ++ "; " ++ joinSemicolon rest

/-- The structured response of the handler; `message` is the `message`
field of the JSON body. -/
structure Response where
  statusCode : Nat
  message : String
deriving DecidableEq

/-- The request body as the handler comes to see it after the
`event.get("body")` fallback and, for strings, `json.loads`:
`dictBody` covers both a dict-typed `body` entry and the
body-is-the-event fallback, `strOk` a string decoding to an object with
the given fields, `strBad` a string on which the decoder raises. -/
inductive BodyStatus where
  | dictBody : List (String × PyVal) → BodyStatus
  | strOk : List (String × PyVal) → BodyStatus
  | strBad : String → BodyStatus

/-- The invocation event: the body and `queryStringParameters` (absent
query strings are the empty list, matching the `or {}` fallback). -/
structure Event where
  body : BodyStatus
  query : List (String × String)

/-- Process-wide state across invocations: the module-level `PARAMETERS`,
`os.environ`, the number of SSM fetches performed so far, and the tenant
database. -/
structure ProcState where
  params : Option (List (String × PyVal))
  environ : String → Option String
  fetchCount : Nat
  db : Database

/-- `lambda_handler` of app.py lines 13-144, to the extent the claims
need it: parameter memoization and environment copy, body parse, input
extraction and validation, configuration resolution, processing, and the
structured response.  `ssmStore` is the decoded content of the SSM
parameter; `jsonLoadsDb`, `jsonP`, `litP` stand for the library parsers.
The Kayako client is initialised fail-soft and its note posting has no
modelled effect.  Branches the source only reaches through an uncaught
`AttributeError` on a non-string `region`/`org_id` collapse to the
generic 500 of the outer handler. -/
def lambda_handler (jsonLoadsDb : String → Option (List (String × RegionConfig)))
    (jsonP litP : String → Option PyVal)
    (ssmStore : List (String × PyVal)) (ev : Event) (st : ProcState) :
    Response × ProcState :=
  let params := (loadStep st.params ssmStore).1
  let fetched := (loadStep st.params ssmStore).2
  let st1 : ProcState :=
    { st with
        params := some params
        fetchCount := st.fetchCount + (if fetched then 1 else 0) }
  let st2 : ProcState :=
    { st1 with
        environ := params.foldl (fun e kv => envSetF e kv.1 (renderEnvVal kv.2)) st1.environ }
  match ev.body with
  | .strBad s => (⟨400, "Invalid JSON: " ++ s⟩, st2)
  | .dictBody fields | .strOk fields =>
    let org_id := alookupD fields "org_id" .vnone
    let subscriptions := parse_list_parameter jsonP litP (alookupD fields "subscriptions" (.vlist []))
    let region := alookupD fields "region" .vnone
    let case_id := alookupD fields "case_id" .vnone
    let test_mode := effectiveTestFlag fields ev.query
    let validation_errors := validate_inputs org_id subscriptions region case_id
    if validation_errors.isEmpty then
      match region with
      | .vstr regionStr =>
        match get_database_config jsonLoadsDb (st2.environ "databases") regionStr with
        | .error msg => (⟨500, msg⟩, st2)
        | .ok _profile =>
          match org_id with
          | .vstr orgStr =>
            let (_result, db2) :=
              process_macd_cancellation st2.db orgStr (subscriptions.map pyStr) test_mode
            (⟨200, "MACD request cancellation completed"⟩, { st2 with db := db2 })
          | _ => (⟨500, "Operation failed"⟩, st2)
      | _ => (⟨500, "Lambda execution error"⟩, st2)
    else
      (⟨400, "Validation errors: " ++ joinSemicolon validation_errors⟩, st2)

/-! ## Concrete fixtures used by witnesses and counterexamples -/

/-- The empty tenant database. -/
def dbEmpty : Database := ⟨[], [], []⟩

/-- The worked scenario of the spec: one matching subscription row, two
fetched MACD rows with statuses `posted` and `declined`, and two order
rows of which one carries the eligible basket id. -/
def dbScenario : Database :=
  { subscription := [⟨"s1", "sub1X"⟩]
    macd_request := [⟨"m1", some "b1", "posted", "s1"⟩, ⟨"m2", some "b2", "declined", "s1"⟩]
    order_request := [⟨some "b1", "new"⟩, ⟨some "b9", "new"⟩] }

/-- A state exhibiting the truthiness filters: both fetched rows are
eligible, one has an empty id and a real basket, the other a real id and
an empty basket; the sole order row carries the empty basket id. -/
def dbEmptyIds : Database :=
  { subscription := [⟨"s1", "sub1X"⟩]
    macd_request := [⟨"", some "b1", "posted", "s1"⟩, ⟨"m2", some "", "posted", "s1"⟩]
    order_request := [⟨some "", "new"⟩] }

/-- Fault schedule raising at the SELECT (tick 2). -/
def faultAtSelect : Nat → Bool := fun k => k == 2

/-- A library parser that fails on every input. -/
def parserNone : String → Option PyVal := fun _ => none

/-- A configuration-blob parser that fails on every input. -/
def dbParserNone : String → Option (List (String × RegionConfig)) := fun _ => none

/-- A region entry with complete credentials and no port. -/
def rcEU : RegionConfig := ⟨some "name", some "user", some "pass", some "host", none⟩

/-- A configuration-blob parser returning a mapping with the single
region `EU`. -/
def dbLoadsEU : String → Option (List (String × RegionConfig)) :=
  fun _ => some [("EU", rcEU)]

/-- A valid request naming the unconfigured region `XX`. -/
def evXX : Event :=
  ⟨.dictBody [("org_id", .vstr "00d1"), ("subscriptions", .vlist [.vstr "s"]),
    ("region", .vstr "XX"), ("case_id", .vstr "999")], []⟩

/-- A warm process state whose cached parameters hold a `databases`
entry. -/
def stEU : ProcState := ⟨some [("databases", .vstr "cfg")], fun _ => none, 0, dbEmpty⟩

/-- A cold process state: nothing cached, empty environment. -/
def stFresh : ProcState := ⟨none, fun _ => none, 0, dbEmpty⟩

/-- An event whose body string fails to decode. -/
def evBadBody : Event := ⟨.strBad "not json", []⟩

/-- An HTTP endpoint answering 429 to every request. -/
def respAll429 : Nat → HttpOutcome := fun _ => .status 429

/-! ## Lemmas -/

/-- An empty IN list matches no order row. -/
theorem orderRowHit_nil (r : OrderRow) : orderRowHit [] r = false := by
  unfold orderRowHit; cases r.basket_id <;> simp

/-- An UPDATE with an empty IN list affects no order row. -/
theorem countOrderMatch_nil (db : Database) : countOrderMatch [] db = 0 := by
  unfold countOrderMatch
  simp [orderRowHit_nil]

/-- An empty IN list matches no macd row. -/
theorem macdRowHit_nil (m : MacdRow) : macdRowHit [] m = false := by
  simp [macdRowHit]

/-- An UPDATE with an empty IN list affects no macd row. -/
theorem countMacdMatch_nil (db : Database) : countMacdMatch [] db = 0 := by
  unfold countMacdMatch
  simp [macdRowHit_nil]

/-- No eligible records means no basket ids. -/
theorem basketIdsOf_of_elig_nil {db : Database} {subs : List String}
    (h : eligibleOf db subs = []) : basketIdsOf db subs = [] := by
  simp [basketIdsOf, h, dedupFirst, dedupAux]

/-- No eligible records means no macd ids. -/
theorem macdIdsOf_of_elig_nil {db : Database} {subs : List String}
    (h : eligibleOf db subs = []) : macdIdsOf db subs = [] := by
  simp [macdIdsOf, h, dedupFirst, dedupAux]

/-- The order-request UPDATE leaves the macd table alone, so the macd
rowcount may be read off the original database. -/
theorem countMacdMatch_applyOrder (ids ids2 : List String) (db : Database) :
    countMacdMatch ids (applyOrderUpdate ids2 db) = countMacdMatch ids db := by
  simp [countMacdMatch, applyOrderUpdate]

/-- The eligible record count equals the count of fetched rows with
status `posted`. -/
theorem eligibleOf_length (db : Database) (subs : List String) :
    (eligibleOf db subs).length
      = ((selectMacd db subs).filter (fun m => m.status = "posted")).length := by
  unfold eligibleOf
  rw [List.filter_map, List.length_map]
  rfl

/-- The skipped records are exactly the non-`posted` fetched rows, as
records, in fetch order. -/
theorem skippedOf_eq (db : Database) (subs : List String) :
    skippedOf db subs
      = ((selectMacd db subs).filter (fun m => ¬ m.status = "posted")).map toRecord := by
  unfold skippedOf
  rw [List.filter_map]
  rfl

/-- The skipped count is the fetched count minus the eligible count. -/
theorem skippedOf_length (db : Database) (subs : List String) :
    (skippedOf db subs).length
      = (selectMacd db subs).length
        - ((selectMacd db subs).filter (fun m => m.status = "posted")).length := by
  rw [skippedOf_eq, List.length_map]
  have h := List.length_eq_length_filter_add (l := selectMacd db subs)
    (fun m => decide (m.status = "posted"))
  simp only [decide_not] at *
  omega

/-- Membership in `dedupAux`: the element occurs in the input and was not
already seen. -/
theorem mem_dedupAux : ∀ (l seen : List String) (a : String),
    a ∈ dedupAux seen l ↔ a ∈ l ∧ a ∉ seen := by
  intro l
  induction l with
  | nil => simp [dedupAux]
  | cons x xs ih =>
    intro seen a
    by_cases hx : x ∈ seen <;> by_cases hax : a = x <;>
      simp_all [dedupAux, ih]

/-- De-duplication does not change membership. -/
theorem mem_dedupFirst (a : String) (l : List String) :
    a ∈ dedupFirst l ↔ a ∈ l := by
  simp [dedupFirst, mem_dedupAux]

/-- A basket id is collected exactly when it is the non-empty basket id of
some eligible record. -/
theorem mem_basketIdsOf (db : Database) (subs : List String) (b : String) :
    b ∈ basketIdsOf db subs
      ↔ b ≠ "" ∧ ∃ m ∈ eligibleOf db subs, m.basket_id = some b := by
  unfold basketIdsOf
  rw [mem_dedupFirst]
  simp only [List.mem_filterMap, List.mem_map]
  constructor
  · rintro ⟨o, ⟨m, hm, rfl⟩, hf⟩
    cases hmb : m.basket_id with
    | none => rw [hmb] at hf; simp [cellTruthy] at hf
    | some s =>
      rw [hmb] at hf
      by_cases hs : s = ""
      · subst hs; simp [cellTruthy] at hf
      · rw [if_pos (by simp [cellTruthy, hs])] at hf
        cases hf
        exact ⟨hs, m, hm, hmb⟩
  · rintro ⟨hb, m, hm, hmb⟩
    exact ⟨m.basket_id, ⟨m, hm, rfl⟩, by simp [hmb, cellTruthy, hb]⟩

/-- A macd id is collected exactly when it is the non-empty id of some
eligible record. -/
theorem mem_macdIdsOf (db : Database) (subs : List String) (i : String) :
    i ∈ macdIdsOf db subs
      ↔ i ≠ "" ∧ ∃ m ∈ eligibleOf db subs, m.id = i := by
  unfold macdIdsOf
  rw [mem_dedupFirst]
  simp only [List.mem_filter, List.mem_map]
  constructor
  · rintro ⟨⟨m, hm, rfl⟩, hne⟩
    exact ⟨by simpa using hne, m, hm, rfl⟩
  · rintro ⟨hne, m, hm, rfl⟩
    exact ⟨⟨m, hm, rfl⟩, by simpa using hne⟩

/-- The IN predicate over the collected basket ids agrees with the
claim-side predicate over eligible records. -/
theorem orderRowHit_eq (db : Database) (subs : List String) (r : OrderRow) :
    orderRowHit (basketIdsOf db subs) r = claimOrderAffected db subs r := by
  unfold orderRowHit claimOrderAffected
  cases hb : r.basket_id with
  | none => rfl
  | some b =>
    rw [Bool.eq_iff_iff]
    simp [mem_basketIdsOf, List.any_eq_true]

/-- The IN predicate over the collected macd ids agrees with the
claim-side predicate over eligible records. -/
theorem macdRowHit_eq (db : Database) (subs : List String) (m : MacdRow) :
    macdRowHit (macdIdsOf db subs) m = claimMacdAffected db subs m := by
  unfold macdRowHit claimMacdAffected
  rw [Bool.eq_iff_iff]
  simp [mem_macdIdsOf, List.any_eq_true]

/-- An UPDATE with an empty IN list is the identity on the database. -/
theorem applyOrderUpdate_nil (db : Database) : applyOrderUpdate [] db = db := by
  unfold applyOrderUpdate
  rw [List.map_congr_left (fun r _ => by rw [orderRowHit_nil])]
  simp

/-- An UPDATE with an empty IN list is the identity on the database. -/
theorem applyMacdUpdate_nil (db : Database) : applyMacdUpdate [] db = db := by
  unfold applyMacdUpdate
  rw [List.map_congr_left (fun m _ => by rw [macdRowHit_nil])]
  simp

/-- Skipping the guarded UPDATE on an empty id list equals running it. -/
theorem ite_applyOrder (ids : List String) (db : Database) :
    (if ids.isEmpty then db else applyOrderUpdate ids db) = applyOrderUpdate ids db := by
  by_cases h : ids.isEmpty
  · rw [if_pos h, List.isEmpty_iff.mp h, applyOrderUpdate_nil]
  · rw [if_neg h]

/-- Skipping the guarded UPDATE on an empty id list equals running it. -/
theorem ite_applyMacd (ids : List String) (db : Database) :
    (if ids.isEmpty then db else applyMacdUpdate ids db) = applyMacdUpdate ids db := by
  by_cases h : ids.isEmpty
  · rw [if_pos h, List.isEmpty_iff.mp h, applyMacdUpdate_nil]
  · rw [if_neg h]

/-- Appending a pattern already in the list does not change the OR of the
LIKE disjuncts. -/
theorem any_append_single (subs : List String) (x : String) (f : String → Bool)
    (hx : x ∈ subs) : (subs ++ [x]).any f = subs.any f := by
  rw [List.any_append]
  cases hfx : f x
  · simp [hfx]
  · have : subs.any f = true := List.any_eq_true.mpr ⟨x, hx, hfx⟩
    simp [hfx, this]

/-- The fetched row set is invariant under a duplicated subscription id. -/
theorem selectMacd_dup (db : Database) (subs : List String) (x : String)
    (hx : x ∈ subs) : selectMacd db (subs ++ [x]) = selectMacd db subs := by
  unfold selectMacd
  have hs : ∀ s : SubRow,
      ((subs ++ [x]).any fun p => sqlLike s.sfdc_id (p ++ "%"))
        = (subs.any fun p => sqlLike s.sfdc_id (p ++ "%")) :=
    fun s => any_append_single subs x _ hx
  simp only [hs]

/-- Eligible records are invariant under a duplicated subscription id. -/
theorem eligibleOf_dup (db : Database) (subs : List String) (x : String)
    (hx : x ∈ subs) : eligibleOf db (subs ++ [x]) = eligibleOf db subs := by
  unfold eligibleOf
  rw [selectMacd_dup db subs x hx]

/-- Skipped records are invariant under a duplicated subscription id. -/
theorem skippedOf_dup (db : Database) (subs : List String) (x : String)
    (hx : x ∈ subs) : skippedOf db (subs ++ [x]) = skippedOf db subs := by
  unfold skippedOf
  rw [selectMacd_dup db subs x hx]

/-- Basket ids are invariant under a duplicated subscription id. -/
theorem basketIdsOf_dup (db : Database) (subs : List String) (x : String)
    (hx : x ∈ subs) : basketIdsOf db (subs ++ [x]) = basketIdsOf db subs := by
  unfold basketIdsOf
  rw [eligibleOf_dup db subs x hx]

/-- Macd ids are invariant under a duplicated subscription id. -/
theorem macdIdsOf_dup (db : Database) (subs : List String) (x : String)
    (hx : x ∈ subs) : macdIdsOf db (subs ++ [x]) = macdIdsOf db subs := by
  unfold macdIdsOf
  rw [eligibleOf_dup db subs x hx]

/-! ## Claim theorems -/

/-- C1: with `test_mode = true` the transaction is rolled back, so the
persisted database is unchanged, the result reports `committed = false`,
and the two update counters still report the row counts the UPDATE
statements matched before the rollback. -/
theorem test_mode_rolls_back (db : Database) (org_id : String)
    (subscriptions : List String) (_h : subscriptions ≠ []) :
    (process_macd_cancellation db org_id subscriptions true).2 = db ∧
    (process_macd_cancellation db org_id subscriptions true).1.committed = false ∧
    (process_macd_cancellation db org_id subscriptions true).1.order_requests_updated
      = countOrderMatch (basketIdsOf db subscriptions) db ∧
    (process_macd_cancellation db org_id subscriptions true).1.macd_requests_updated
      = countMacdMatch (macdIdsOf db subscriptions) db := by
  unfold process_macd_cancellation
  by_cases he : (eligibleOf db subscriptions).isEmpty
  · rw [List.isEmpty_iff] at he
    simp [he, basketIdsOf_of_elig_nil he, macdIdsOf_of_elig_nil he,
      countOrderMatch_nil, countMacdMatch_nil]
  · simp only [he, if_false, Bool.false_eq_true]
    by_cases hb : (basketIdsOf db subscriptions).isEmpty <;>
      by_cases hm : (macdIdsOf db subscriptions).isEmpty <;>
        simp [hb, hm, List.isEmpty_iff.mp, countOrderMatch_nil, countMacdMatch_nil,
          countMacdMatch_applyOrder]

/-- Witness for C1 at the worked scenario state. -/
theorem test_mode_rolls_back_witness :
    ["sub1"] ≠ ([] : List String) ∧
    ((process_macd_cancellation dbScenario "00d1" ["sub1"] true).2 = dbScenario ∧
     (process_macd_cancellation dbScenario "00d1" ["sub1"] true).1.committed = false ∧
     (process_macd_cancellation dbScenario "00d1" ["sub1"] true).1.order_requests_updated
       = countOrderMatch (basketIdsOf dbScenario ["sub1"]) dbScenario ∧
     (process_macd_cancellation dbScenario "00d1" ["sub1"] true).1.macd_requests_updated
       = countMacdMatch (macdIdsOf dbScenario ["sub1"]) dbScenario) :=
  ⟨by decide, test_mode_rolls_back dbScenario "00d1" ["sub1"] (by decide)⟩

/-- C4: of the N fetched rows exactly the K with status `posted` are
eligible, `total_found = N`, `eligible_count = K`,
`skipped_wrong_status = N - K`, and each non-`posted` row is recorded in
`skipped_records` with its id and status. -/
theorem counters_partition (db : Database) (org_id : String)
    (subscriptions : List String) (test_mode : Bool) (_h : subscriptions ≠ []) :
    (process_macd_cancellation db org_id subscriptions test_mode).1.total_found
      = (selectMacd db subscriptions).length ∧
    (process_macd_cancellation db org_id subscriptions test_mode).1.eligible_count
      = ((selectMacd db subscriptions).filter (fun m => m.status = "posted")).length ∧
    (process_macd_cancellation db org_id subscriptions test_mode).1.skipped_wrong_status
      = (selectMacd db subscriptions).length
        - ((selectMacd db subscriptions).filter (fun m => m.status = "posted")).length ∧
    (process_macd_cancellation db org_id subscriptions test_mode).1.skipped_records
      = ((selectMacd db subscriptions).filter (fun m => ¬ m.status = "posted")).map toRecord := by
  refine ⟨?_, ?_, ?_, ?_⟩ <;>
    (unfold process_macd_cancellation; dsimp only; split_ifs <;>
      simp [eligibleOf_length, skippedOf_length, skippedOf_eq]) <;>
    (have h := List.length_eq_length_filter_add (l := selectMacd db subscriptions)
        (fun m => decide (m.status = "posted"))
     omega)

/-- C2 counterexample: in `dbEmptyIds` both fetched rows are eligible;
one eligible record carries the non-null basket id `""` and one carries
the id `""`, yet after a committed run the order row whose basket id is
`""` keeps status `new` (not `Error`) and the macd row whose id is `""`
keeps status `posted` (not `posted1`), because the source filters both id
collections by Python truthiness, which drops empty strings. -/
theorem update_frame_cex :
    (∃ m ∈ eligibleOf dbEmptyIds ["sub1"], m.basket_id = some "") ∧
    (∃ m ∈ eligibleOf dbEmptyIds ["sub1"], m.id = "") ∧
    (process_macd_cancellation dbEmptyIds "00d1" ["sub1"] false).1.committed = true ∧
    (process_macd_cancellation dbEmptyIds "00d1" ["sub1"] false).2.order_request
      = [⟨some "", "new"⟩] ∧
    (process_macd_cancellation dbEmptyIds "00d1" ["sub1"] false).2.macd_request
      = [⟨"", some "b1", "posted", "s1"⟩, ⟨"m2", some "", "posted1", "s1"⟩] := by
  decide

/-- C2 (amended): with `test_mode = false` and at least one eligible row,
the committed database sets status `Error` exactly on order rows whose
basket id is a non-null, non-empty basket id of an eligible record, sets
status `posted1` exactly on macd rows whose id is a non-empty id of an
eligible record, and leaves every other row (and the subscription table)
unchanged. -/
theorem update_frame (db : Database) (org_id : String) (subs : List String)
    (_h : subs ≠ []) (he : eligibleOf db subs ≠ []) :
    (process_macd_cancellation db org_id subs false).2.subscription = db.subscription ∧
    (process_macd_cancellation db org_id subs false).2.order_request
      = db.order_request.map
          (fun r => if claimOrderAffected db subs r then { r with status := "Error" } else r) ∧
    (process_macd_cancellation db org_id subs false).2.macd_request
      = db.macd_request.map
          (fun m => if claimMacdAffected db subs m then { m with status := "posted1" } else m) ∧
    (process_macd_cancellation db org_id subs false).1.committed = true := by
  unfold process_macd_cancellation
  dsimp only
  rw [if_neg (by simpa [List.isEmpty_iff] using he), ite_applyOrder, ite_applyMacd]
  refine ⟨?_, ?_, ?_, ?_⟩
  · simp [applyOrderUpdate, applyMacdUpdate]
  · rw [List.map_congr_left (fun r _ => by rw [← orderRowHit_eq db subs r])]
    simp [applyOrderUpdate, applyMacdUpdate]
  · rw [List.map_congr_left (fun m _ => by rw [← macdRowHit_eq db subs m])]
    simp [applyOrderUpdate, applyMacdUpdate]
  · simp

/-- Witness for the amended C2 at the worked scenario state. -/
theorem update_frame_witness :
    ["sub1"] ≠ ([] : List String) ∧ eligibleOf dbScenario ["sub1"] ≠ [] ∧
    ((process_macd_cancellation dbScenario "00d1" ["sub1"] false).2.subscription
        = dbScenario.subscription ∧
     (process_macd_cancellation dbScenario "00d1" ["sub1"] false).2.order_request
        = dbScenario.order_request.map
            (fun r => if claimOrderAffected dbScenario ["sub1"] r then
                { r with status := "Error" } else r) ∧
     (process_macd_cancellation dbScenario "00d1" ["sub1"] false).2.macd_request
        = dbScenario.macd_request.map
            (fun m => if claimMacdAffected dbScenario ["sub1"] m then
                { m with status := "posted1" } else m) ∧
     (process_macd_cancellation dbScenario "00d1" ["sub1"] false).1.committed = true) :=
  ⟨by decide, by decide, update_frame dbScenario "00d1" ["sub1"] (by decide) (by decide)⟩

/-- C9: appending a subscription id already present leaves the whole
result (and the final database) unchanged: the repeated LIKE disjunct
does not change the satisfied row set. -/
theorem dup_subscription_invariant (db : Database) (org_id : String)
    (subs : List String) (x : String) (test_mode : Bool) (hx : x ∈ subs) :
    process_macd_cancellation db org_id (subs ++ [x]) test_mode
      = process_macd_cancellation db org_id subs test_mode := by
  unfold process_macd_cancellation
  simp only [selectMacd_dup db subs x hx, eligibleOf_dup db subs x hx,
    skippedOf_dup db subs x hx, basketIdsOf_dup db subs x hx,
    macdIdsOf_dup db subs x hx]

/-- Witness for C9 at the worked scenario state. -/
theorem dup_subscription_invariant_witness :
    "sub1" ∈ ["sub1"] ∧
    process_macd_cancellation dbScenario "00d1" (["sub1"] ++ ["sub1"]) true
      = process_macd_cancellation dbScenario "00d1" ["sub1"] true :=
  ⟨by decide, dup_subscription_invariant dbScenario "00d1" ["sub1"] "sub1" true (by decide)⟩

/-- Witness for C4 at the worked scenario state. -/
theorem counters_partition_witness :
    ["sub1"] ≠ ([] : List String) ∧
    ((process_macd_cancellation dbScenario "00d1" ["sub1"] true).1.total_found
       = (selectMacd dbScenario ["sub1"]).length ∧
     (process_macd_cancellation dbScenario "00d1" ["sub1"] true).1.eligible_count
       = ((selectMacd dbScenario ["sub1"]).filter (fun m => m.status = "posted")).length ∧
     (process_macd_cancellation dbScenario "00d1" ["sub1"] true).1.skipped_wrong_status
       = (selectMacd dbScenario ["sub1"]).length
         - ((selectMacd dbScenario ["sub1"]).filter (fun m => m.status = "posted")).length ∧
     (process_macd_cancellation dbScenario "00d1" ["sub1"] true).1.skipped_records
       = ((selectMacd dbScenario ["sub1"]).filter (fun m => ¬ m.status = "posted")).map toRecord) :=
  ⟨by decide, counters_partition dbScenario "00d1" ["sub1"] true (by decide)⟩

/-- A faulted UPDATE call leaves the transaction state untouched. -/
theorem execUpdate_error (f : Nat → Bool) (st : PState) (cnt : Database → Nat)
    (ap : Database → Database) (e : Nat) (st2 : PState)
    (h : execUpdate f st cnt ap = (.error e, st2)) :
    st2.committed = st.committed ∧ st2.connected = st.connected ∧
      st2.pending = st.pending := by
  unfold execUpdate at h
  split at h
  · cases h; exact ⟨rfl, rfl, rfl⟩
  · cases h

/-- A successful UPDATE call changes only the pending view and the tick. -/
theorem execUpdate_ok (f : Nat → Bool) (st : PState) (cnt : Database → Nat)
    (ap : Database → Database) (r : Nat) (st2 : PState)
    (h : execUpdate f st cnt ap = (.ok r, st2)) :
    st2.committed = st.committed ∧ st2.connected = st.connected := by
  unfold execUpdate at h
  split at h
  · cases h
  · cases h; exact ⟨rfl, rfl⟩

/-- If the try block raises, the persisted database is still the input,
and when the connect call itself was the one that raised, the pending
view is untouched as well. -/
theorem macdBody_error (f : Nat → Bool) (db : Database) (org : String)
    (subs : List String) (t : Bool) (e : Nat) (st : PState)
    (h : macdBody f db org subs t = (.error e, st)) :
    st.committed = db ∧ (st.connected = false → st.pending = db) := by
  unfold macdBody at h
  dsimp only at h
  split at h
  · cases h; exact ⟨rfl, fun _ => rfl⟩
  split at h
  · cases h; exact ⟨rfl, fun hc => by cases hc⟩
  split at h
  · cases h; exact ⟨rfl, fun hc => by cases hc⟩
  split at h
  · cases h
  split at h
  case _ e2 st2 heq =>
    cases h
    split at heq
    · cases heq
    · have hf := execUpdate_error _ _ _ _ _ _ heq
      exact ⟨hf.1, fun hc => by rw [hf.2.1] at hc; cases hc⟩
  case _ orderCnt st4 heq =>
    have h4 : st4.committed = db ∧ st4.connected = true := by
      split at heq
      · cases heq; exact ⟨rfl, rfl⟩
      · have hf := execUpdate_ok _ _ _ _ _ _ heq
        exact ⟨hf.1, hf.2⟩
    split at h
    case _ e3 st5 heq2 =>
      cases h
      split at heq2
      · cases heq2
      · have hf := execUpdate_error _ _ _ _ _ _ heq2
        refine ⟨by rw [hf.1, h4.1], fun hc => ?_⟩
        rw [hf.2.1, h4.2] at hc
        cases hc
    case _ macdCnt st5 heq2 =>
      have h5 : st5.committed = db ∧ st5.connected = true := by
        split at heq2
        · cases heq2; exact h4
        · have hf := execUpdate_ok _ _ _ _ _ _ heq2
          exact ⟨by rw [hf.1, h4.1], by rw [hf.2, h4.2]⟩
      split at h
      · cases h
        exact ⟨h5.1, fun hc => by rw [h5.2] at hc; cases hc⟩
      split at h
      · cases h
      · cases h

/-- The finally clause closes any open connection. -/
theorem finallyClose_release (st : PState) :
    (finallyClose st).connected = true → (finallyClose st).closed = true := by
  unfold finallyClose
  by_cases h : st.connected <;> simp [h]

/-- Closing does not change the transaction state. -/
theorem finallyClose_fields (st : PState) :
    (finallyClose st).committed = st.committed ∧
    (finallyClose st).pending = st.pending := by
  unfold finallyClose
  by_cases h : st.connected <;> simp [h]

/-- The except-handler rollback keeps the persisted database and resets
the pending view when a connection is open. -/
theorem exceptRollback_fields (st : PState) :
    (exceptRollback st).committed = st.committed ∧
    (exceptRollback st).pending = (if st.connected then st.committed else st.pending) := by
  unfold exceptRollback
  by_cases h : st.connected <;> simp [h]

/-- C3: under every fault schedule, the connection is released on every
exit path (success, early return, or exception), any exception raised in
the try block is re-raised to the caller, and on the error path both the
persisted database and the rolled-back pending view equal the input
database. -/
theorem exception_safety (f : Nat → Bool) (db : Database) (org_id : String)
    (subs : List String) (test_mode : Bool) :
    ((process_macd_cancellation_f f db org_id subs test_mode).2.connected = true →
      (process_macd_cancellation_f f db org_id subs test_mode).2.closed = true) ∧
    (∀ e, (process_macd_cancellation_f f db org_id subs test_mode).1 = .error e →
      (process_macd_cancellation_f f db org_id subs test_mode).2.committed = db ∧
      (process_macd_cancellation_f f db org_id subs test_mode).2.pending = db) ∧
    (∀ e st, macdBody f db org_id subs test_mode = (.error e, st) →
      (process_macd_cancellation_f f db org_id subs test_mode).1 = .error e) := by
  unfold process_macd_cancellation_f
  rcases hB : macdBody f db org_id subs test_mode with ⟨out, stb⟩
  cases out with
  | ok r =>
    refine ⟨finallyClose_release stb, ?_, ?_⟩
    · intro e he; cases he
    · intro e st h
      simp at h
  | error e0 =>
    have hbe := macdBody_error f db org_id subs test_mode e0 stb hB
    refine ⟨finallyClose_release _, ?_, ?_⟩
    · intro e _he
      rw [(finallyClose_fields _).1, (finallyClose_fields _).2,
        (exceptRollback_fields stb).1, (exceptRollback_fields stb).2]
      refine ⟨hbe.1, ?_⟩
      by_cases hc : stb.connected
      · rw [if_pos hc, hbe.1]
      · rw [if_neg hc, hbe.2 (by simpa using hc)]
    · intro e st h
      cases h
      rfl

/-- Witness for C3: a fault at the SELECT of the worked scenario. -/
theorem exception_safety_witness :
    (process_macd_cancellation_f faultAtSelect dbScenario "00d1" ["sub1"] false).2.closed = true ∧
    ((process_macd_cancellation_f faultAtSelect dbScenario "00d1" ["sub1"] false).2.committed
       = dbScenario ∧
     (process_macd_cancellation_f faultAtSelect dbScenario "00d1" ["sub1"] false).2.pending
       = dbScenario) ∧
    (process_macd_cancellation_f faultAtSelect dbScenario "00d1" ["sub1"] false).1
      = .error 2 :=
  ⟨(exception_safety faultAtSelect dbScenario "00d1" ["sub1"] false).1 rfl,
   (exception_safety faultAtSelect dbScenario "00d1" ["sub1"] false).2.1 2 rfl,
   (exception_safety faultAtSelect dbScenario "00d1" ["sub1"] false).2.2 2
     (macdBody faultAtSelect dbScenario "00d1" ["sub1"] false).2 rfl⟩

/-- One unfolding step of the retry loop. -/
theorem retryLoop_succ (isS : Nat → Bool) (resp : Nat → HttpOutcome)
    (rem calls sleeps : Nat) :
    retryLoop isS resp (rem + 1) calls sleeps
      = match resp calls with
        | .connError => ⟨none, calls + 1, sleeps⟩
        | .reqError => ⟨none, calls + 1, sleeps⟩
        | .status c =>
          if isS c then ⟨some calls, calls + 1, sleeps⟩
          else if c = 429 then retryLoop isS resp rem (calls + 1) (sleeps + 15)
          else ⟨none, calls + 1, sleeps⟩ := rfl

/-- The loop issues at most `remaining` further HTTP requests. -/
theorem retryLoop_calls_le (isS : Nat → Bool) (resp : Nat → HttpOutcome) :
    ∀ (rem calls sleeps : Nat),
      (retryLoop isS resp rem calls sleeps).calls ≤ calls + rem := by
  intro rem
  induction rem with
  | zero => intro calls sleeps; simp [retryLoop]
  | succ n ih =>
    intro calls sleeps
    rw [retryLoop_succ]
    cases resp calls with
    | connError => simp
    | reqError => simp
    | status c =>
      dsimp only
      by_cases hs : isS c
      · simp [hs]
      · by_cases h4 : c = 429
        · rw [if_neg hs, if_pos h4]
          have := ih (calls + 1) (sleeps + 15)
          omega
        · rw [if_neg hs, if_neg h4]
          simp


/-- A prefix of k rate-limited responses consumes k attempts and sleeps
15 seconds each before the loop continues. -/
theorem retryLoop_429_prefix (isS : Nat → Bool) (resp : Nat → HttpOutcome)
    (h429 : isS 429 = false) :
    ∀ (k rem calls sleeps : Nat), k ≤ rem →
      (∀ j, j < k → resp (calls + j) = .status 429) →
      retryLoop isS resp rem calls sleeps
        = retryLoop isS resp (rem - k) (calls + k) (sleeps + 15 * k) := by
  intro k
  induction k with
  | zero => intro rem calls sleeps _ _; simp
  | succ n ih =>
    intro rem calls sleeps hle hall
    obtain ⟨m, rfl⟩ : ∃ m, rem = m + 1 := ⟨rem - 1, by omega⟩
    have h0 : resp calls = .status 429 := by
      have := hall 0 (by omega)
      simpa using this
    rw [retryLoop_succ, h0]
    dsimp only
    rw [if_neg (by simp [h429]), if_pos rfl]
    have hrec := ih m (calls + 1) (sleeps + 15) (by omega) (fun j hj => by
      have h2 := hall (j + 1) (by omega)
      rwa [show calls + (j + 1) = calls + 1 + j by omega] at h2)
    rw [hrec, show m - n = m + 1 - (n + 1) by omega,
      show calls + 1 + n = calls + (n + 1) by omega,
      show sleeps + 15 + 15 * n = sleeps + 15 * (n + 1) by omega]

/-- Three rate-limited responses exhaust the attempts: null result, three
requests, 45 seconds slept. -/
theorem retryLoop_exhaust (isS : Nat → Bool) (resp : Nat → HttpOutcome)
    (h429 : isS 429 = false) (hall : ∀ j, j < 3 → resp j = .status 429) :
    retryLoop isS resp 3 0 0 = ⟨none, 3, 45⟩ := by
  have h := retryLoop_429_prefix isS resp h429 3 3 0 0 (le_refl 3)
    (fun j hj => by simpa using hall j hj)
  simpa [retryLoop] using h

/-- A connection error after k rate-limited responses ends the call at
once with a null result. -/
theorem retryLoop_abort_conn (isS : Nat → Bool) (resp : Nat → HttpOutcome)
    (h429 : isS 429 = false) (k : Nat) (hk : k < 3)
    (hall : ∀ j, j < k → resp j = .status 429) (hck : resp k = .connError) :
    retryLoop isS resp 3 0 0 = ⟨none, k + 1, 15 * k⟩ := by
  have h := retryLoop_429_prefix isS resp h429 k 3 0 0 (by omega)
    (fun j hj => by simpa using hall j hj)
  rw [h]
  obtain ⟨m, hm⟩ : ∃ m, 3 - k = m + 1 := ⟨2 - k, by omega⟩
  rw [hm, show (0 + k) = k by omega, retryLoop_succ, hck]
  simp

/-- A non-success, non-429 status after k rate-limited responses ends the
call at once with a null result. -/
theorem retryLoop_abort_status (isS : Nat → Bool) (resp : Nat → HttpOutcome)
    (h429 : isS 429 = false) (k c : Nat) (hk : k < 3)
    (hall : ∀ j, j < k → resp j = .status 429) (hck : resp k = .status c)
    (hcS : isS c = false) (hc4 : c ≠ 429) :
    retryLoop isS resp 3 0 0 = ⟨none, k + 1, 15 * k⟩ := by
  have h := retryLoop_429_prefix isS resp h429 k 3 0 0 (by omega)
    (fun j hj => by simpa using hall j hj)
  rw [h]
  obtain ⟨m, hm⟩ : ∃ m, 3 - k = m + 1 := ⟨2 - k, by omega⟩
  rw [hm, show (0 + k) = k by omega, retryLoop_succ, hck]
  dsimp only
  rw [if_neg (by simp [hcS]), if_neg hc4]
  simp

/-- C8: each of get/post/put makes at most 3 attempts; all-429 responses
exhaust the attempts sleeping 15 seconds after each and return a null
result without raising; any other non-success status or a connection
error ends the call immediately with a null result and no retry. -/
theorem kayako_retry_policy (resp : Nat → HttpOutcome) :
    (kayakoGet resp).calls ≤ 3 ∧ (kayakoPost resp).calls ≤ 3 ∧ (kayakoPut resp).calls ≤ 3 ∧
    ((∀ j, j < 3 → resp j = .status 429) →
      kayakoGet resp = ⟨none, 3, 45⟩ ∧ kayakoPost resp = ⟨none, 3, 45⟩ ∧
        kayakoPut resp = ⟨none, 3, 45⟩) ∧
    (∀ k, k < 3 → (∀ j, j < k → resp j = .status 429) → resp k = .connError →
      kayakoGet resp = ⟨none, k + 1, 15 * k⟩ ∧ kayakoPost resp = ⟨none, k + 1, 15 * k⟩ ∧
        kayakoPut resp = ⟨none, k + 1, 15 * k⟩) ∧
    (∀ k c, k < 3 → (∀ j, j < k → resp j = .status 429) → resp k = .status c → c ≠ 429 →
      (c ≠ 200 → kayakoGet resp = ⟨none, k + 1, 15 * k⟩) ∧
      (c ≠ 201 → kayakoPost resp = ⟨none, k + 1, 15 * k⟩) ∧
      (c ≠ 200 → c ≠ 202 → kayakoPut resp = ⟨none, k + 1, 15 * k⟩)) := by
  refine ⟨retryLoop_calls_le _ _ 3 0 0, retryLoop_calls_le _ _ 3 0 0,
    retryLoop_calls_le _ _ 3 0 0, ?_, ?_, ?_⟩
  · intro hall
    exact ⟨retryLoop_exhaust _ _ (by decide) hall,
      retryLoop_exhaust _ _ (by decide) hall,
      retryLoop_exhaust _ _ (by decide) hall⟩
  · intro k hk hall hconn
    exact ⟨retryLoop_abort_conn _ _ (by decide) k hk hall hconn,
      retryLoop_abort_conn _ _ (by decide) k hk hall hconn,
      retryLoop_abort_conn _ _ (by decide) k hk hall hconn⟩
  · intro k c hk hall hst hc4
    refine ⟨fun h200 => retryLoop_abort_status _ _ (by decide) k c hk hall hst (by simp [h200]) hc4,
      fun h201 => retryLoop_abort_status _ _ (by decide) k c hk hall hst (by simp [h201]) hc4,
      fun h200 h202 => retryLoop_abort_status _ _ (by decide) k c hk hall hst
        (by simp [h200, h202]) hc4⟩

/-- Witness for C8: an endpoint that always answers 429. -/
theorem kayako_retry_policy_witness :
    kayakoGet respAll429 = ⟨none, 3, 45⟩ ∧ kayakoPost respAll429 = ⟨none, 3, 45⟩ ∧
      kayakoPut respAll429 = ⟨none, 3, 45⟩ :=
  (kayako_retry_policy respAll429).2.2.2.1 (fun _ _ => rfl)

/-- C6 (amended): `parse_list_parameter` is total and dispatches as
follows: `None` to the empty list, a list unchanged, a string first
through the JSON parse (accepted only if it yields a list), then through
the literal parse, and when both fail the STRIPPED string becomes a
single-element list; any other value is wrapped in a single-element
list.  Stated for every behaviour of the two library parsers. -/
theorem parse_list_characterization (jsonP litP : String → Option PyVal) :
    parse_list_parameter jsonP litP .vnone = [] ∧
    (∀ l, parse_list_parameter jsonP litP (.vlist l) = l) ∧
    (∀ s, pyStrip s = "" → parse_list_parameter jsonP litP (.vstr s) = []) ∧
    (∀ s l, pyStrip s ≠ "" → jsonP (pyStrip s) = some (.vlist l) →
      parse_list_parameter jsonP litP (.vstr s) = l) ∧
    (∀ s l, pyStrip s ≠ "" → (∀ l0, jsonP (pyStrip s) ≠ some (.vlist l0)) →
      litP (pyStrip s) = some (.vlist l) → parse_list_parameter jsonP litP (.vstr s) = l) ∧
    (∀ s, pyStrip s ≠ "" → (∀ l0, jsonP (pyStrip s) ≠ some (.vlist l0)) →
      (∀ l0, litP (pyStrip s) ≠ some (.vlist l0)) →
      parse_list_parameter jsonP litP (.vstr s) = [.vstr (pyStrip s)]) ∧
    (∀ b, parse_list_parameter jsonP litP (.vbool b) = [.vbool b]) ∧
    (∀ n, parse_list_parameter jsonP litP (.vint n) = [.vint n]) ∧
    (∀ d, parse_list_parameter jsonP litP (.vdict d) = [.vdict d]) := by
  refine ⟨rfl, fun l => rfl, ?_, ?_, ?_, ?_, fun b => rfl, fun n => rfl, fun d => rfl⟩
  · intro s hs
    unfold parse_list_parameter
    dsimp only
    rw [if_pos hs]
  · intro s l hne hj
    unfold parse_list_parameter
    dsimp only
    rw [if_neg hne, hj]
  · intro s l hne hnj hl
    unfold parse_list_parameter
    dsimp only
    rw [if_neg hne, hl]
    cases hj : jsonP (pyStrip s) with
    | none => rfl
    | some v =>
      cases v with
      | vlist l0 => exact absurd hj (hnj l0)
      | vnone => rfl
      | vbool b => rfl
      | vint n => rfl
      | vstr t => rfl
      | vdict d => rfl
  · intro s hne hnj hnl
    unfold parse_list_parameter
    dsimp only
    rw [if_neg hne]
    have hjred :
        (match jsonP (pyStrip s) with
          | some (.vlist l) => l
          | _ => match litP (pyStrip s) with
            | some (.vlist l) => l
            | _ => [PyVal.vstr (pyStrip s)]) =
        (match litP (pyStrip s) with
          | some (.vlist l) => l
          | _ => [PyVal.vstr (pyStrip s)]) := by
      cases hj : jsonP (pyStrip s) with
      | none => rfl
      | some v =>
        cases v with
        | vlist l0 => exact absurd hj (hnj l0)
        | vnone => rfl
        | vbool b => rfl
        | vint n => rfl
        | vstr t => rfl
        | vdict d => rfl
    rw [hjred]
    cases hl : litP (pyStrip s) with
    | none => rfl
    | some v =>
      cases v with
      | vlist l0 => exact absurd hl (hnl l0)
      | vnone => rfl
      | vbool b => rfl
      | vint n => rfl
      | vstr t => rfl
      | vdict d => rfl

/-- C6 counterexample: when both library parsers fail, the function
returns the STRIPPED string, not the whole string: on input
`" abc "` (with parsers that fail, as the Python ones do on `abc`) the
result is `["abc"]`, and `"abc"` differs from `" abc "`. -/
theorem parse_list_strips_cex :
    parse_list_parameter parserNone parserNone (.vstr " abc ") = [.vstr "abc"] ∧
    "abc" ≠ " abc " :=
  ⟨rfl, by decide⟩

/-- Witness for the amended C6 on the fallback branch. -/
theorem parse_list_characterization_witness :
    parse_list_parameter parserNone parserNone (.vstr " xyz ")
      = [.vstr (pyStrip " xyz ")] :=
  (parse_list_characterization parserNone parserNone).2.2.2.2.2.1 " xyz "
    (by decide) (fun l0 h => by cases h) (fun l0 h => by cases h)

/-- C7: the effective test flag takes the raw body field `test` when that
value is truthy, falls back to the query-string field `test_mode`
otherwise, defaults to false when both are absent or falsy, and the
chosen raw value is normalized by `parse_bool_parameter`. -/
theorem effective_test_flag_spec (fields : List (String × PyVal))
    (query : List (String × String)) :
    (pyTruthy (alookupD fields "test" .vnone) = true →
      effectiveTestFlag fields query = parse_bool_parameter (alookupD fields "test" .vnone)) ∧
    (pyTruthy (alookupD fields "test" .vnone) = false →
      pyTruthy (queryTestVal query) = true →
      effectiveTestFlag fields query = parse_bool_parameter (queryTestVal query)) ∧
    (pyTruthy (alookupD fields "test" .vnone) = false →
      pyTruthy (queryTestVal query) = false →
      effectiveTestFlag fields query = false) := by
  unfold effectiveTestFlag pyOr
  refine ⟨?_, ?_, ?_⟩
  · intro h1
    rw [if_pos h1]
  · intro h1 h2
    rw [if_neg (by simp [h1]), if_pos h2]
  · intro h1 h2
    rw [if_neg (by simp [h1]), if_neg (by simp [h2])]
    rfl

/-- Witness for C7: a truthy body string beats a query value, the query
value is used when the body field is absent, and both absent gives
false. -/
theorem effective_test_flag_spec_witness :
    effectiveTestFlag [("test", .vstr "false")] [("test_mode", "true")]
      = parse_bool_parameter (.vstr "false") ∧
    effectiveTestFlag [] [("test_mode", "yes")]
      = parse_bool_parameter (queryTestVal [("test_mode", "yes")]) ∧
    effectiveTestFlag [] [] = false :=
  ⟨(effective_test_flag_spec [("test", .vstr "false")] [("test_mode", "true")]).1 rfl,
   (effective_test_flag_spec [] [("test_mode", "yes")]).2.1 rfl rfl,
   (effective_test_flag_spec [] []).2.2 rfl rfl⟩

/-- String append acts as list append on the character data. -/
theorem data_append (a b : String) : (a ++ b).data = a.data ++ b.data := rfl

/-- Every listed key occurs verbatim inside the rendered Python list. -/
theorem pyStrListRepr_mem : ∀ (l : List String) (k : String), k ∈ l →
    ∃ pre post : List Char, (pyStrListRepr l).data = pre ++ k.data ++ post := by
  intro l
  induction l with
  | nil => intro k hk; cases hk
  | cons x xs ih =>
    intro k hk
    cases xs with
    | nil =>
      have hk2 : k = x := by simpa using hk
      subst hk2
      exact ⟨quoteCh.data, quoteCh.data, by simp [pyStrListRepr, data_append, List.append_assoc]⟩
    | cons y ys =>
      rcases List.mem_cons.mp hk with rfl | hk2
      · refine ⟨quoteCh.data, (quoteCh ++ ", " ++ pyStrListRepr (y :: ys)).data, ?_⟩
        simp [pyStrListRepr, data_append, List.append_assoc]
      · obtain ⟨p, q, hpq⟩ := ih k hk2
        refine ⟨(quoteCh ++ x ++ quoteCh ++ ", ").data ++ p, q, ?_⟩
        simp [pyStrListRepr, data_append, List.append_assoc, hpq]

/-- Every joined element occurs verbatim inside the comma join. -/
theorem joinComma_mem : ∀ (l : List String) (k : String), k ∈ l →
    ∃ pre post : List Char, (joinComma l).data = pre ++ k.data ++ post := by
  intro l
  induction l with
  | nil => intro k hk; cases hk
  | cons x xs ih =>
    intro k hk
    cases xs with
    | nil =>
      have hk2 : k = x := by simpa using hk
      subst hk2
      exact ⟨[], [], by simp [joinComma]⟩
    | cons y ys =>
      rcases List.mem_cons.mp hk with rfl | hk2
      · refine ⟨[], (", " ++ joinComma (y :: ys)).data, ?_⟩
        simp [joinComma, data_append, List.append_assoc]
      · obtain ⟨p, q, hpq⟩ := ih k hk2
        refine ⟨(x ++ ", ").data ++ p, q, ?_⟩
        simp [joinComma, data_append, List.append_assoc, hpq]

/-- An empty missing list means every credential field is non-empty. -/
theorem missingOf_nil (rc : RegionConfig) (h : missingOf rc = []) :
    cellTruthy rc.sm_db_name = true ∧ cellTruthy rc.sm_db_user = true ∧
    cellTruthy rc.sm_db_password = true ∧ cellTruthy rc.sm_db_host = true := by
  unfold missingOf at h
  by_cases h1 : cellTruthy rc.sm_db_name <;>
    by_cases h2 : cellTruthy rc.sm_db_user <;>
      by_cases h3 : cellTruthy rc.sm_db_password <;>
        by_cases h4 : cellTruthy rc.sm_db_host <;>
          simp_all

/-- C5: `get_database_config` upper-cases the region key; it fails when
the blob is absent, when the (upper-cased) region key is not configured
(the message contains each available region key verbatim, and the
handler turns this failure into a 500 response, shown on the concrete
region `XX` scenario), and when a required credential field other than
port is empty (the message contains each missing field name verbatim);
a missing port defaults to 5432 and on success the returned profile is
complete. -/
theorem db_config_resolution (jsonL : String → Option (List (String × RegionConfig)))
    (region blob : String) (m : List (String × RegionConfig)) (rc : RegionConfig) :
    get_database_config jsonL none region
      = .error "No databases configuration found in SSM parameters" ∧
    (jsonL blob = some m → alookup m (pyUpper region) = none →
      ∃ msg, get_database_config jsonL (some blob) region = .error msg ∧
        ∀ k ∈ m.map Prod.fst, ∃ pre post : List Char, msg.data = pre ++ k.data ++ post) ∧
    (jsonL blob = some m → alookup m (pyUpper region) = some rc → missingOf rc ≠ [] →
      ∃ msg, get_database_config jsonL (some blob) region = .error msg ∧
        ∀ f ∈ missingOf rc, ∃ pre post : List Char, msg.data = pre ++ f.data ++ post) ∧
    (jsonL blob = some m → alookup m (pyUpper region) = some rc → missingOf rc = [] →
      get_database_config jsonL (some blob) region = .ok (profileOf rc) ∧
      (profileOf rc).port = rc.sm_db_port.getD 5432 ∧
      cellTruthy (profileOf rc).dbname = true ∧ cellTruthy (profileOf rc).user = true ∧
      cellTruthy (profileOf rc).password = true ∧ cellTruthy (profileOf rc).host = true) ∧
    ((lambda_handler dbLoadsEU parserNone parserNone [] evXX stEU).1.statusCode = 500 ∧
      ∃ pre post : List Char,
        (lambda_handler dbLoadsEU parserNone parserNone [] evXX stEU).1.message.data
          = pre ++ "EU".data ++ post) := by
  refine ⟨rfl, ?_, ?_, ?_, ?_, ?_⟩
  · intro hj hl
    unfold get_database_config
    dsimp only
    rw [hj]
    dsimp only
    rw [hl]
    refine ⟨_, rfl, ?_⟩
    intro k hk
    obtain ⟨p, q, hpq⟩ := pyStrListRepr_mem (m.map Prod.fst) k hk
    refine ⟨("Unsupported database region: " ++ pyUpper region
      ++ ". Supported regions: [").data ++ p, q ++ "]".data, ?_⟩
    simp [data_append, List.append_assoc, hpq]
  · intro hj hl hne
    unfold get_database_config
    dsimp only
    rw [hj]
    dsimp only
    rw [hl]
    dsimp only
    rw [if_neg (by simpa [List.isEmpty_iff] using hne)]
    refine ⟨_, rfl, ?_⟩
    intro f hf
    obtain ⟨p, q, hpq⟩ := joinComma_mem (missingOf rc) f hf
    refine ⟨("Missing database configuration parameters for " ++ pyUpper region
      ++ ": ").data ++ p, q, ?_⟩
    simp [data_append, List.append_assoc, hpq]
  · intro hj hl hnil
    unfold get_database_config
    dsimp only
    rw [hj]
    dsimp only
    rw [hl]
    dsimp only
    rw [if_pos (by simp [hnil])]
    obtain ⟨h1, h2, h3, h4⟩ := missingOf_nil rc hnil
    exact ⟨rfl, rfl, h1, h2, h3, h4⟩
  · rfl
  · exact ⟨("Unsupported database region: XX. Supported regions: [" ++ quoteCh).data,
      (quoteCh ++ "]").data, rfl⟩

/-- Witness for C5: region `xx` against a configuration holding only
`EU`. -/
theorem db_config_resolution_witness :
    ∃ msg, get_database_config dbLoadsEU (some "cfg") "xx" = .error msg ∧
      ∀ k ∈ ([("EU", rcEU)].map Prod.fst), ∃ pre post : List Char,
        msg.data = pre ++ k.data ++ post :=
  (db_config_resolution dbLoadsEU "xx" "cfg" [("EU", rcEU)] rcEU).2.1 rfl rfl

/-- Setting an environment key makes it readable. -/
theorem envSetF_self (e : String → Option String) (k v : String) :
    envSetF e k v k = some v := by simp [envSetF]

/-- Setting an environment key leaves other keys alone. -/
theorem envSetF_other (e : String → Option String) (k v k2 : String)
    (h : k2 ≠ k) : envSetF e k v k2 = e k2 := by simp [envSetF, h]

/-- Copying entries whose keys avoid `k` does not change `k`. -/
theorem env_fold_preserve : ∀ (l : List (String × PyVal))
    (e : String → Option String) (k : String), k ∉ l.map Prod.fst →
    (l.foldl (fun e2 kv2 => envSetF e2 kv2.1 (renderEnvVal kv2.2)) e) k = e k := by
  intro l
  induction l with
  | nil => intro e k _; rfl
  | cons x xs ih =>
    intro e k hk
    simp only [List.map_cons, List.mem_cons, not_or] at hk
    rw [List.foldl_cons, ih _ k hk.2, envSetF_other _ _ _ _ hk.1]

/-- After copying a configuration with distinct keys, every entry is
readable with its rendered value. -/
theorem env_fold_lookup : ∀ (l : List (String × PyVal))
    (e : String → Option String), (l.map Prod.fst).Nodup →
    ∀ kv ∈ l,
      (l.foldl (fun e2 kv2 => envSetF e2 kv2.1 (renderEnvVal kv2.2)) e) kv.1
        = some (renderEnvVal kv.2) := by
  intro l
  induction l with
  | nil => intro e _ kv hkv; cases hkv
  | cons x xs ih =>
    intro e hnd kv hkv
    rw [List.map_cons, List.nodup_cons] at hnd
    rcases List.mem_cons.mp hkv with rfl | hkv2
    · rw [List.foldl_cons, env_fold_preserve xs _ kv.1 hnd.1]
      exact envSetF_self e kv.1 (renderEnvVal kv.2)
    · rw [List.foldl_cons]
      exact ih _ hnd.2 kv hkv2

/-- On every branch of the handler, the final environment is the input
environment with every effective configuration entry copied in. -/
theorem lambda_handler_environ (jsonL : String → Option (List (String × RegionConfig)))
    (jP lP : String → Option PyVal) (store : List (String × PyVal))
    (ev : Event) (st : ProcState) :
    (lambda_handler jsonL jP lP store ev st).2.environ
      = (loadStep st.params store).1.foldl
          (fun e kv => envSetF e kv.1 (renderEnvVal kv.2)) st.environ := by
  unfold lambda_handler
  dsimp only
  cases ev.body <;> dsimp only <;> (repeat' split) <;> rfl

/-- On every branch of the handler, the cached parameters and the fetch
counter are governed by `loadStep` alone. -/
theorem lambda_handler_params (jsonL : String → Option (List (String × RegionConfig)))
    (jP lP : String → Option PyVal) (store : List (String × PyVal))
    (ev : Event) (st : ProcState) :
    (lambda_handler jsonL jP lP store ev st).2.fetchCount
      = st.fetchCount + (if (loadStep st.params store).2 then 1 else 0) ∧
    (lambda_handler jsonL jP lP store ev st).2.params
      = some (loadStep st.params store).1 := by
  unfold lambda_handler
  dsimp only
  cases ev.body <;> dsimp only <;> (repeat' split) <;> exact ⟨rfl, rfl⟩

/-- C10 (amended): on every invocation, before the body is parsed or
validated, every entry of the effective configuration is copied into the
process environment (dicts JSON-encoded, others stringified), so even a
request rejected as malformed (400) mutates the environment; the
secrets-store fetch is skipped exactly when the cached `PARAMETERS` is a
non-empty configuration, so for a non-empty configuration it happens at
most once per process. -/
theorem handler_env_and_memoization (jsonL : String → Option (List (String × RegionConfig)))
    (jP lP : String → Option PyVal) (store : List (String × PyVal))
    (ev : Event) (st : ProcState) :
    (((loadStep st.params store).1.map Prod.fst).Nodup →
      ∀ kv ∈ (loadStep st.params store).1,
        (lambda_handler jsonL jP lP store ev st).2.environ kv.1
          = some (renderEnvVal kv.2)) ∧
    (∀ s, ev.body = .strBad s →
      (lambda_handler jsonL jP lP store ev st).1.statusCode = 400) ∧
    (∀ p, st.params = some p → p ≠ [] →
      (lambda_handler jsonL jP lP store ev st).2.fetchCount = st.fetchCount ∧
      (lambda_handler jsonL jP lP store ev st).2.params = some p) ∧
    (st.params = none →
      (lambda_handler jsonL jP lP store ev st).2.fetchCount = st.fetchCount + 1 ∧
      (lambda_handler jsonL jP lP store ev st).2.params = some store) := by
  refine ⟨?_, ?_, ?_, ?_⟩
  · intro hnd kv hkv
    rw [lambda_handler_environ]
    exact env_fold_lookup _ st.environ hnd kv hkv
  · intro s hs
    unfold lambda_handler
    dsimp only
    rw [hs]
  · intro p hp hne
    have hload : loadStep st.params store = (p, false) := by
      rw [hp]
      unfold loadStep
      dsimp only
      rw [if_neg (by simpa [List.isEmpty_iff] using hne)]
    obtain ⟨h1, h2⟩ := lambda_handler_params jsonL jP lP store ev st
    rw [hload] at h1 h2
    simpa using ⟨h1, h2⟩
  · intro hp
    have hload : loadStep st.params store = (store, true) := by
      rw [hp]; rfl
    obtain ⟨h1, h2⟩ := lambda_handler_params jsonL jP lP store ev st
    rw [hload] at h1 h2
    simpa using ⟨h1, h2⟩

/-- C10 counterexample: when the store holds an empty configuration the
`PARAMETERS or load_parameters(...)` idiom re-fetches on every
invocation (the cached empty dict is falsy): two invocations from a cold
process perform two fetches, not at most one. -/
theorem params_memoization_cex :
    stFresh.params = none ∧
    (lambda_handler dbParserNone parserNone parserNone [] evBadBody stFresh).2.fetchCount = 1 ∧
    (lambda_handler dbParserNone parserNone parserNone [] evBadBody
      (lambda_handler dbParserNone parserNone parserNone [] evBadBody stFresh).2).2.fetchCount
      = 2 :=
  ⟨rfl, rfl, rfl⟩

/-- Witness for the amended C10: a malformed-body request against a warm
state still writes the configuration into the environment, returns 400,
and performs no fetch. -/
theorem handler_env_and_memoization_witness :
    (lambda_handler dbLoadsEU parserNone parserNone [] evBadBody stEU).2.environ "databases"
      = some (renderEnvVal (.vstr "cfg")) ∧
    (lambda_handler dbLoadsEU parserNone parserNone [] evBadBody stEU).1.statusCode = 400 ∧
    ((lambda_handler dbLoadsEU parserNone parserNone [] evBadBody stEU).2.fetchCount
        = stEU.fetchCount ∧
     (lambda_handler dbLoadsEU parserNone parserNone [] evBadBody stEU).2.params
        = some [("databases", PyVal.vstr "cfg")]) :=
  ⟨(handler_env_and_memoization dbLoadsEU parserNone parserNone [] evBadBody stEU).1
      (by decide) ("databases", PyVal.vstr "cfg") (List.mem_singleton.mpr rfl),
   (handler_env_and_memoization dbLoadsEU parserNone parserNone [] evBadBody stEU).2.1
      "not json" rfl,
   (handler_env_and_memoization dbLoadsEU parserNone parserNone [] evBadBody stEU).2.2.1
      [("databases", PyVal.vstr "cfg")] rfl (by simp)⟩
